import Mathlib

/-!
TaskMaster backend (src/backend/server.py): shallow embedding and verification.

This file embeds the data model and the request handlers of the TaskMaster
FastAPI backend (`src/backend/server.py`) as pure Lean functions over an
explicit database state, and proves/refutes the frozen specification claims
about them.

Modelling conventions:
* UUIDs are represented by their 128-bit integer value as a `Nat`
  (Python's `uuid.UUID` stores exactly this integer).  Raw, unparsed ids
  arriving in requests are `String`s, as in the handlers.
* Timestamps (`datetime.now(timezone.utc)`) are `Nat`s supplied to each
  handler as an explicit `now` parameter.
* The PostgreSQL database is an explicit record of three tables (lists of
  rows); each mutating handler returns the final database (after commit, or
  the unchanged input database after rollback) alongside its HTTP outcome.
* HTTP failures (`HTTPException(status_code, detail)`) are `ApiError`
  values carrying the status code and the detail string from the source.
* Python's `json` module is treated as a trusted codec: the content of a
  `tags`/`images` column is a `JsonListCell`, whose constructors record what
  the value reads back as (a list, the JSON text of a list, malformed text,
  non-list JSON, or SQL NULL).  `json.dumps` of a list is the `jsonText`
  constructor; `parse_json_list_field` is translated branch by branch.
-/

namespace TaskMaster

/-! UUID parsing.

`server.py` validates ids in two distinct ways.  Handlers that call
`uuid.UUID(s)` follow CPython's parsing algorithm (`Lib/uuid.py`): remove
every occurrence of `urn:` and of `uuid:`, strip `{`/`}` characters from both
ends, remove all hyphens, and require exactly 32 hexadecimal digits.
`create_task`, by contrast, sends the raw string to PostgreSQL, which casts it
with the `uuid` input routine: an optional surrounding brace pair, 32 hex
digits, hyphens permitted at four-digit boundaries.  (Exotic corners of both
grammars — whitespace/sign tolerance of CPython's `int(hex, 16)`, and the
exact hyphen.position rule of PostgreSQL — are immaterial to every claim and
are modelled by the straightforward readings above.) -/

def isHexChar (c : Char) : Bool :=
  c.isDigit || ('a' ≤ c && c ≤ 'f') || ('A' ≤ c && c ≤ 'F')

def hexCharVal (c : Char) : Nat :=
  if c.isDigit then c.toNat - 48
  else if 'a' ≤ c && c ≤ 'f' then c.toNat - 87
  else c.toNat - 55

def hexFold (l : List Char) : Nat :=
  l.foldl (fun acc c => 16 * acc + hexCharVal c) 0

/-- Remove every occurrence of `urn:` from a character list (Python
`str.replace('urn:', '')`, with an empty replacement the left-to-right scan
below is equivalent). -/
def removeUrn : List Char → List Char
  | 'u' :: 'r' :: 'n' :: ':' :: rest => removeUrn rest
  | c :: rest => c :: removeUrn rest
  | [] => []

/-- Remove every occurrence of `uuid:` (Python `str.replace('uuid:', '')`). -/
def removeUuidColon : List Char → List Char
  | 'u' :: 'u' :: 'i' :: 'd' :: ':' :: rest => removeUuidColon rest
  | c :: rest => c :: removeUuidColon rest
  | [] => []

def isBraceChar (c : Char) : Bool := c == '{' || c == '}'

/-- Python `str.strip('{\x7d')`: drop brace characters from both ends. -/
def stripBraces (l : List Char) : List Char :=
  ((l.dropWhile isBraceChar).reverse.dropWhile isBraceChar).reverse

/-- CPython `uuid.UUID(s)`: returns the 128-bit integer value, or `none` when
`ValueError` is raised. -/
def pyUUIDParse (s : String) : Option Nat :=
  let hexPart := ((stripBraces (removeUuidColon (removeUrn s.toList))).filter
    (fun c => c != '-'))
  if hexPart.length == 32 && hexPart.all isHexChar then
    some (hexFold hexPart)
  else
    none

/-- Scanner for the PostgreSQL `uuid` input routine: counts hex digits,
allows a hyphen only between four-digit groups. -/
def pgScanHex : List Char → Nat → Nat → Option Nat
  | [], n, acc => if n == 32 then some acc else none
  | c :: rest, n, acc =>
    if c == '-' then
      if n % 4 == 0 && n != 0 && n != 32 then pgScanHex rest n acc else none
    else if isHexChar c then
      if n == 32 then none else pgScanHex rest (n + 1) (16 * acc + hexCharVal c)
    else none

/-- PostgreSQL cast of a text value to the `uuid` type; `none` models the
`invalid input syntax for type uuid` error (a `psycopg2.Error` at the
handler). -/
def pgUUIDParse (s : String) : Option Nat :=
  match s.toList with
  | '{' :: rest =>
    match rest.reverse with
    | '}' :: revBody => pgScanHex revBody.reverse 0 0
    | _ => none
  | l => pgScanHex l 0 0

/-! JSON list cells (the `tags` / `images` columns). -/

/-- The value psycopg2 hands back for a `tags`/`images` column.  The write
path always stores `json.dumps` of a list of strings (`jsonText`); the other
constructors model legacy/corrupt rows and SQL NULL. -/
inductive JsonListCell where
  /-- Case: psycopg2 already decoded the column to a Python list (JSONB column). -/
  | pyList (l : List String)
  /-- Case: the column text is exactly `json.dumps l` for the list `l`. -/
  | jsonText (l : List String)
  /-- Case: the column text is not valid JSON (`json.JSONDecodeError`). -/
  | badText (s : String)
  /-- Case: the column text is valid JSON but not a list. -/
  | nonListJson (s : String)
  /-- Case: SQL NULL (Python `None`). -/
  | nullCell
  deriving DecidableEq, Repr

/-- Function `json.dumps(value)` on the write path of `create_task`/`update_task`. -/
def jsonDumpsList (l : List String) : JsonListCell := JsonListCell.jsonText l

/-- Function `parse_json_list_field` (server.py:260-299), branch by branch:
an actual list is returned as is; a string is `json.loads`-parsed and kept
only when it is a list; everything else degrades to the empty list. -/
def parse_json_list_field (raw : JsonListCell) : List String :=
  match raw with
  | JsonListCell.pyList l => l
  | JsonListCell.jsonText l => l
  | JsonListCell.badText _ => []
  | JsonListCell.nonListJson _ => []
  | JsonListCell.nullCell => []

/-! Errors. -/

/-- An HTTP error response: `HTTPException(status_code, detail)` in the
source, or the FastAPI/Pydantic 422 rejection produced before a handler
runs. -/
structure ApiError where
  status : Nat
  detail : String
  deriving DecidableEq, Repr

/-- The spec's `BadRequest` taxon (§7: malformed id, empty update set,
out-of-range value).  In the code this surfaces either as an explicit
`HTTPException` with status 400 or as FastAPI's 422 validation rejection. -/
def isSpecBadRequest (e : ApiError) : Bool :=
  e.status == 400 || e.status == 422

/-! Database rows and state. -/

structure UserRow where
  id : Nat
  username : String
  email : Option String
  password_hash : Nat × String
  created_at : Nat
  deriving DecidableEq, Repr

structure CategoryRow where
  id : Nat
  /-- Field is `none` for a global category (`user_id IS NULL`). -/
  user_id : Option Nat
  name : Option String
  color : Option String
  icon : Option String
  created_at : Nat
  deriving DecidableEq, Repr

structure TaskRow where
  id : Nat
  user_id : Nat
  title : Option String
  description : Option String
  category_id : Option Nat
  tags : JsonListCell
  priority : Option String
  status : Option String
  completion_percentage : Option Int
  images : JsonListCell
  due_date : Option String
  created_at : Nat
  updated_at : Nat
  deriving DecidableEq, Repr

structure Db where
  users : List UserRow
  categories : List CategoryRow
  tasks : List TaskRow
  deriving DecidableEq, Repr

/-! Password hashing and JWT (trusted-library models).

`bcrypt.hashpw(password, gensalt())` is a salted one-way hash: modelled as the
pair (salt, password), with `bcrypt.checkpw` comparing the password
component.  A JWT signed with `jwt.encode(payload, secret, alg)` is modelled
as its payload together with the signing secret; `jwt.decode` succeeds
exactly when the secrets agree and the token is not expired. -/

def hash_password (salt : Nat) (password : String) : Nat × String :=
  (salt, password)

def verify_password (password : String) (hashed : Nat × String) : Bool :=
  password == hashed.2

structure Jwt where
  user_id : Nat
  exp : Nat
  secret : String
  deriving DecidableEq, Repr

/-- Function `create_token` (server.py:391-410): payload user_id plus an expiry 30
days from issuance, signed with `JWT_SECRET`. -/
def create_token (secret : String) (now : Nat) (user_id : Nat) : Jwt :=
  { user_id := user_id, exp := now + 86400 * 30, secret := secret }

/-- Function `get_current_user_id` (server.py:450-512), the auth gate used by every
protected endpoint.  Checks, in source order: the configured secret is
non-empty (Python truthiness of `JWT_SECRET`), the token signature matches,
the token is unexpired, and the embedded user still exists in the `users`
table.  (The `user_id is None` payload branch is unreachable here because
`Jwt` payloads always carry a user id, exactly as those built by
`create_token`.) -/
def get_current_user_id (db : Db) (secret : String) (now : Nat) (tok : Jwt) :
    Except ApiError Nat :=
  if secret == "" then .error ⟨500, "Sunucu konfigürasyon hatası."⟩
  else if tok.secret != secret then .error ⟨401, "Geçersiz token: imza doğrulanamadı."⟩
  else if tok.exp ≤ now then .error ⟨401, "Token süresi dolmuş, lütfen tekrar giriş yapın."⟩
  else if db.users.any (fun u => u.id == tok.user_id) then .ok tok.user_id
  else .error ⟨401, "Kullanıcı bulunamadı veya yetkilendirilmedi."⟩

/-! Pydantic request and response models. -/

structure UserRegister where
  username : String
  password : String
  email : Option String := none
  deriving DecidableEq, Repr

structure UserLogin where
  username : String
  password : String
  deriving DecidableEq, Repr

structure User where
  id : Nat
  username : String
  email : Option String
  created_at : Nat
  deriving DecidableEq, Repr

structure TokenData where
  token : Jwt
  user : User
  deriving DecidableEq, Repr

structure CategoryResponse where
  id : Nat
  user_id : Option Nat
  name : String
  color : Option String
  icon : Option String
  created_at : Option Nat
  deriving DecidableEq, Repr

/-- Model `CategoryUpdate`: every field optional.  The outer `Option` is Pydantic's
field-was-set marker (`model_dump(exclude_unset=True)`); the inner `Option`
is an explicit JSON `null`. -/
structure CategoryUpdate where
  name : Option (Option String) := none
  color : Option (Option String) := none
  icon : Option (Option String) := none
  deriving DecidableEq, Repr

def CategoryUpdate.isEmptySet (u : CategoryUpdate) : Bool :=
  u.name.isNone && u.color.isNone && u.icon.isNone

/-- Model `TaskCreate` (server.py:214-224) with the field constraints
(`min_length=1` on title, `ge=0, le=100` on completion_percentage) expressed
separately in `taskCreateBodyOk`. -/
structure TaskCreate where
  title : String
  description : Option String := some ""
  category_id : Option String := none
  tags : List String := []
  priority : String := "Orta"
  status : String := "Yapılacak"
  completion_percentage : Int := 0
  images : List String := []
  due_date : Option String := none
  deriving DecidableEq, Repr

/-- The constraints FastAPI/Pydantic enforce on a `TaskCreate` body before
`create_task` runs: non-empty title, completion percentage in [0,100]. -/
def taskCreateBodyOk (t : TaskCreate) : Bool :=
  t.title != "" && decide (0 ≤ t.completion_percentage)
    && decide (t.completion_percentage ≤ 100)

/-- FastAPI's rejection of a body that fails Pydantic validation.  It is
produced before the handler is entered; the structured 422 body is abbreviated
to its standard reason phrase. -/
def validationError422 : ApiError := ⟨422, "Unprocessable Entity"⟩

/-- Model `TaskUpdate` (server.py:226-236): every field optional; outer `Option` =
field present in the partial set, inner `Option` = explicit JSON `null`. -/
structure TaskUpdate where
  title : Option (Option String) := none
  description : Option (Option String) := none
  category_id : Option (Option String) := none
  tags : Option (Option (List String)) := none
  priority : Option (Option String) := none
  status : Option (Option String) := none
  completion_percentage : Option (Option Int) := none
  images : Option (Option (List String)) := none
  due_date : Option (Option String) := none
  deriving DecidableEq, Repr

/-- Test whether `task_update.model_dump(exclude_unset=True)` is empty. -/
def TaskUpdate.isEmptySet (u : TaskUpdate) : Bool :=
  u.title.isNone && u.description.isNone && u.category_id.isNone && u.tags.isNone
    && u.priority.isNone && u.status.isNone && u.completion_percentage.isNone
    && u.images.isNone && u.due_date.isNone

structure TaskResponse where
  id : Nat
  user_id : Nat
  title : String
  description : Option String
  tags : List String
  priority : String
  status : String
  completion_percentage : Int
  images : List String
  due_date : Option String
  created_at : Nat
  updated_at : Nat
  category_id : Option Nat
  category_name : Option String
  category_color : Option String
  category_icon : Option String
  deriving DecidableEq, Repr

/-- Join `LEFT JOIN categories c ON t.category_id = c.id` of the task
queries. -/
def joinCategory (db : Db) (t : TaskRow) : Option CategoryRow :=
  t.category_id.bind fun c => db.categories.find? (fun k => k.id == c)

/-- Function `row_to_task_response` (server.py:301-358).  `none` models the
`ValidationError`/`ValueError` path (`TaskResponse` requires non-null title,
priority, status and completion_percentage), translated to an HTTP 500 by the
calling handler.  `category_name or None` maps an empty joined name to
`None`; color/icon pass through.  (`due_date` is carried as its stored text;
datetime re-parsing is not modelled.) -/
def row_to_task_response (row : TaskRow) (cat : Option CategoryRow) :
    Option TaskResponse :=
  match row.title, row.priority, row.status, row.completion_percentage with
  | some ttl, some pr, some st, some cp =>
    some
      { id := row.id, user_id := row.user_id, title := ttl,
        description := row.description,
        tags := parse_json_list_field row.tags,
        priority := pr, status := st, completion_percentage := cp,
        images := parse_json_list_field row.images,
        due_date := row.due_date, created_at := row.created_at,
        updated_at := row.updated_at,
        category_id := row.category_id,
        category_name := (match cat.bind (fun k => k.name) with
          | some n => if n == "" then none else some n
          | none => none),
        category_color := cat.bind (fun k => k.color),
        category_icon := cat.bind (fun k => k.icon) }
  | _, _, _, _ => none

/-! Authentication endpoints. -/

/-- The three default categories seeded for a new user
(server.py:554-561). -/
def registerNewCats (now uid cid1 cid2 cid3 : Nat) : List CategoryRow :=
  [ { id := cid1, user_id := some uid, name := some "Genel",
      color := some "#808080", icon := some "list", created_at := now },
    { id := cid2, user_id := some uid, name := some "İş",
      color := some "#007BFF", icon := some "briefcase", created_at := now },
    { id := cid3, user_id := some uid, name := some "Kişisel",
      color := some "#28A745", icon := some "person", created_at := now } ]

/-- Success condition of the four INSERTs of `register`: the drawn
primary keys are fresh and pairwise distinct, and the (user_id, name)
uniqueness of `categories` is respected; a violation raises
`psycopg2.Error` (rollback + HTTP 500). -/
def registerInsertsOk (db : Db) (uid cid1 cid2 cid3 : Nat) : Bool :=
  db.users.all (fun u => u.id != uid)
  && db.categories.all (fun k =>
      k.id != cid1 && k.id != cid2 && k.id != cid3
      && !(k.user_id == some uid
           && (k.name == some "Genel" || k.name == some "İş"
               || k.name == some "Kişisel")))
  && cid1 != cid2 && cid1 != cid3 && cid2 != cid3

/-- Store after a successful registration: the new user row plus the three
default categories, all sharing `created_at = now`. -/
def dbRegistered (db : Db) (now salt uid cid1 cid2 cid3 : Nat)
    (inp : UserRegister) : Db :=
  { db with
    users := db.users ++
      [{ id := uid, username := inp.username, email := inp.email,
         password_hash := hash_password salt inp.password, created_at := now }],
    categories := db.categories ++ registerNewCats now uid cid1 cid2 cid3 }

/-- Handler `register` (server.py:516-581).  `uid`, `cid1`-`cid3` are the
`uuid.uuid4()` draws, `salt` the bcrypt salt, `now` the shared creation
timestamp.  The duplicate check translates
`WHERE username = %s OR email = %s`: when the request carries no email the
SQL comparison `email = NULL` matches no row. -/
def register (db : Db) (now : Nat) (salt : Nat) (uid cid1 cid2 cid3 : Nat)
    (secret : String) (inp : UserRegister) : Except ApiError TokenData × Db :=
  if db.users.any (fun u =>
      u.username == inp.username ||
      (match inp.email with | some e => u.email == some e | none => false)) then
    (.error ⟨400, "Kullanıcı adı veya e-posta zaten kullanılıyor."⟩, db)
  else if registerInsertsOk db uid cid1 cid2 cid3 then
    (.ok { token := create_token secret now uid,
           user := { id := uid, username := inp.username, email := inp.email,
                     created_at := now } },
     dbRegistered db now salt uid cid1 cid2 cid3 inp)
  else
    (.error ⟨500, "Kayıt hatası: anahtar kısıtı ihlali."⟩, db)

/-- Handler `login` (server.py:583-623).  The source rejects an unknown username and
a wrong password in one `if not user_row or not verify_password(...)` branch;
the two cases below therefore build the very same error value. -/
def login (db : Db) (secret : String) (now : Nat) (inp : UserLogin) :
    Except ApiError TokenData :=
  match db.users.find? (fun u => u.username == inp.username) with
  | none => .error ⟨401, "Kullanıcı adı veya şifre hatalı."⟩
  | some u =>
    if verify_password inp.password u.password_hash then
      .ok { token := create_token secret now u.id,
            user := { id := u.id, username := u.username, email := u.email,
                      created_at := u.created_at } }
    else .error ⟨401, "Kullanıcı adı veya şifre hatalı."⟩

/-! Category endpoints. -/

def applyCategoryUpdate (k : CategoryRow) (u : CategoryUpdate) : CategoryRow :=
  { k with
    name := match u.name with | some v => v | none => k.name
    color := match u.color with | some v => v | none => k.color
    icon := match u.icon with | some v => v | none => k.icon }

/-- Handler `update_category` (server.py:709-786).  Source order: uuid parse (400),
ownership lookup (404), empty partial set (400), name-collision check (400,
only when a non-null name is supplied: `WHERE name = NULL` matches nothing),
then the dynamic `UPDATE ... RETURNING`.  The commit precedes the Pydantic
re-validation, so a null name surfacing there yields a 500 with the update
already persisted. -/
def update_category (db : Db) (uid : Nat) (category_id : String)
    (category_update : CategoryUpdate) : Except ApiError CategoryResponse × Db :=
  match pyUUIDParse category_id with
  | none => (.error ⟨400, "Geçersiz kategori ID formatı."⟩, db)
  | some cid =>
    match db.categories.find? (fun k => k.id == cid && k.user_id == some uid) with
    | none => (.error ⟨404, "Kategori bulunamadı veya size ait değil."⟩, db)
    | some _ =>
      if category_update.isEmptySet then
        (.error ⟨400, "Güncellenecek alan yok."⟩, db)
      else if (match category_update.name with
          | some (some v) => db.categories.any fun k =>
              k.name == some v && k.user_id == some uid && k.id != cid
          | _ => false) then
        (.error ⟨400, "Bu isimde bir kategori zaten mevcut."⟩, db)
      else
        let cats2 := db.categories.map fun k =>
          if k.id == cid && k.user_id == some uid then
            applyCategoryUpdate k category_update
          else k
        let db2 : Db := { db with categories := cats2 }
        match db2.categories.find? (fun k => k.id == cid && k.user_id == some uid) with
        | none => (.error ⟨500, "Kategori güncellenemedi."⟩, db)
        | some row =>
          match row.name with
          | none =>
            (.error ⟨500, "Kategori güncellenirken beklenmedik bir hata oluştu."⟩, db2)
          | some nm =>
            (.ok
              { id := row.id, user_id := row.user_id, name := nm,
                color := row.color, icon := row.icon,
                created_at := some row.created_at }, db2)

/-- Handler `delete_category` (server.py:788-829): uuid parse (400), ownership
lookup (404), then the delete.  Per the source comment at line 808 the
storage-level referential action clears `category_id` on referencing tasks.
The `rowcount == 0` branch after a successful existence check is unreachable
on a single connection. -/
def delete_category (db : Db) (uid : Nat) (category_id : String) :
    Except ApiError Unit × Db :=
  match pyUUIDParse category_id with
  | none => (.error ⟨400, "Geçersiz kategori ID formatı."⟩, db)
  | some cid =>
    if db.categories.any (fun k => k.id == cid && k.user_id == some uid) then
      (.ok (), { db with
        categories := db.categories.filter fun k =>
          !(k.id == cid && k.user_id == some uid),
        tasks := db.tasks.map fun t =>
          if t.category_id == some cid then { t with category_id := none } else t })
    else
      (.error ⟨404, "Kategori bulunamadı veya size ait değil."⟩, db)

/-! Task endpoints. -/

/-- The category validation block of `create_task` (server.py:847-860), for a
truthy `task_in.category_id`.  The raw string is compared in SQL against the
uuid `categories.id` column, so a string PostgreSQL cannot cast raises
`psycopg2.Error` inside `cur.execute`, caught at server.py:905 and surfaced
as HTTP 500 (`Veritabanı hatası: ...`, detail abbreviated); the
`except ValueError` at line 858 is dead code because `uuid.UUID` is never
called on this path. -/
def createCategoryCheck (db : Db) (uid : Nat) (s : String) :
    Except ApiError (Option Nat) :=
  match pgUUIDParse s with
  | none => .error ⟨500, "Veritabanı hatası: geçersiz uuid metin gösterimi."⟩
  | some c =>
    if db.categories.any (fun k => k.id == c && (k.user_id == some uid || k.user_id == none)) then
      .ok (some c)
    else .error ⟨404, "Belirtilen kategori bulunamadı veya size ait değil."⟩

/-- The category validation block of `update_task` (server.py:1044-1053), for
a supplied non-null category id: `uuid.UUID` parse (400 on `ValueError`),
then the same owned-or-global lookup as creation (404). -/
def updateCategoryCheck (db : Db) (uid : Nat) (s : String) :
    Except ApiError (Option Nat) :=
  match pyUUIDParse s with
  | none => .error ⟨400, "Geçersiz kategori ID formatı."⟩
  | some c =>
    if db.categories.any (fun k => k.id == c && (k.user_id == some uid || k.user_id == none)) then
      .ok (some c)
    else .error ⟨404, "Belirtilen kategori bulunamadı veya size ait değil."⟩

/-- Row written by the `INSERT INTO tasks …` of `create_task`
(server.py:866-884): `created_at = updated_at = now`, tags/images through
`json.dumps`, category the validated value. -/
def newTaskRow (now taskId uid : Nat) (task_in : TaskCreate)
    (catOpt : Option Nat) : TaskRow :=
  { id := taskId, user_id := uid,
    title := some task_in.title, description := task_in.description,
    category_id := catOpt, tags := jsonDumpsList task_in.tags,
    priority := some task_in.priority, status := some task_in.status,
    completion_percentage := some task_in.completion_percentage,
    images := jsonDumpsList task_in.images, due_date := task_in.due_date,
    created_at := now, updated_at := now }

/-- Store after the task insert of `create_task`. -/
def dbAfterTaskInsert (db : Db) (now taskId uid : Nat) (task_in : TaskCreate)
    (catOpt : Option Nat) : Db :=
  { db with tasks := db.tasks ++ [newTaskRow now taskId uid task_in catOpt] }

/-- Tail of `create_task` after category validation (server.py:862-903):
the INSERT (a duplicate primary key raises `psycopg2.IntegrityError` → HTTP
500), commit (line 886, before the re-select, so the post-insert failure
branches keep the inserted row), re-select by id and row conversion. -/
def create_task_insert (db : Db) (now taskId uid : Nat) (task_in : TaskCreate)
    (catOpt : Option Nat) : Except ApiError TaskResponse × Db :=
  if db.tasks.any (fun t => t.id == taskId) then
    (.error ⟨500, "Veritabanı hatası: anahtar kısıtı ihlali."⟩, db)
  else
    match (dbAfterTaskInsert db now taskId uid task_in catOpt).tasks.find?
        (fun t => t.id == taskId) with
    | none =>
      (.error ⟨500, "Oluşturulan görev geri alınamadı."⟩,
       dbAfterTaskInsert db now taskId uid task_in catOpt)
    | some r =>
      match row_to_task_response r
          (joinCategory (dbAfterTaskInsert db now taskId uid task_in catOpt) r) with
      | none =>
        (.error ⟨500, "Görev verisi işlenirken hata: doğrulama."⟩,
         dbAfterTaskInsert db now taskId uid task_in catOpt)
      | some resp => (.ok resp, dbAfterTaskInsert db now taskId uid task_in catOpt)

/-- Handler `create_task` (server.py:836-920).  `taskId` is the `uuid.uuid4()` draw.
`if task_in.category_id:` is Python truthiness, so an empty-string category
id skips validation and stores NULL. -/
def create_task (db : Db) (now : Nat) (taskId : Nat) (uid : Nat)
    (task_in : TaskCreate) : Except ApiError TaskResponse × Db :=
  match (match task_in.category_id with
         | some s => if s != "" then createCategoryCheck db uid s else .ok none
         | none => Except.ok none : Except ApiError (Option Nat)) with
  | .error e => (.error e, db)
  | .ok catOpt => create_task_insert db now taskId uid task_in catOpt

/-- Endpoint `POST /tasks` as seen by a client: FastAPI validates the body against
`TaskCreate` before the handler runs; a constraint violation yields the 422
rejection with no database access at all. -/
def create_task_endpoint (db : Db) (now : Nat) (taskId : Nat) (uid : Nat)
    (task_in : TaskCreate) : Except ApiError TaskResponse × Db :=
  if taskCreateBodyOk task_in then create_task db now taskId uid task_in
  else (.error validationError422, db)

/-- Stable insertion step for `ORDER BY t.created_at DESC`. -/
def insertCreatedDesc (r : TaskRow) : List TaskRow → List TaskRow
  | [] => [r]
  | x :: xs =>
    if r.created_at < x.created_at then x :: insertCreatedDesc r xs
    else r :: x :: xs

def sortByCreatedDesc : List TaskRow → List TaskRow
  | [] => []
  | x :: xs => insertCreatedDesc x (sortByCreatedDesc xs)

/-- The list comprehension `[row_to_task_response(row) for row in rows]`: a
`ValueError` on any row aborts the whole response (HTTP 500). -/
def allResponses (db : Db) : List TaskRow → Option (List TaskResponse)
  | [] => some []
  | r :: rest =>
    match row_to_task_response r (joinCategory db r), allResponses db rest with
    | some x, some xs => some (x :: xs)
    | _, _ => none

/-- Handler `get_tasks` (server.py:923-976).  Every filter is guarded by Python
truthiness (`if category_id:` …), so an empty-string filter is skipped
entirely.  A truthy but unparseable category filter returns the empty list
(server.py:947-949) — an explicit policy, not an error.  Filters are
conjunctive; ordering is creation time descending. -/
def get_tasks (db : Db) (uid : Nat) (category_id priority status : Option String) :
    Except ApiError (List TaskResponse) :=
  let catFilter : Option (Option Nat) :=
    match category_id with
    | some s =>
      if s != "" then
        (match pyUUIDParse s with | some c => some (some c) | none => some none)
      else none
    | none => none
  match catFilter with
  | some none => .ok []
  | cf =>
    let rows := db.tasks.filter fun t =>
      t.user_id == uid
      && (match cf with | some (some c) => t.category_id == some c | _ => true)
      && (match priority with | some p => p == "" || t.priority == some p | none => true)
      && (match status with | some st => st == "" || t.status == some st | none => true)
    match allResponses db (sortByCreatedDesc rows) with
    | some resps => .ok resps
    | none => .error ⟨500, "Görev verisi işlenemedi: doğrulama."⟩

/-- Handler `get_task` (server.py:978-1016): `uuid.UUID` parse of the path id (400),
owner-scoped lookup (404 — the same error whether the row is absent or owned
by someone else), then row conversion.  (The parse of the caller's own
`user_id` always succeeds: token payloads carry uuid values by
construction.) -/
def get_task (db : Db) (task_id : String) (uid : Nat) :
    Except ApiError TaskResponse :=
  match pyUUIDParse task_id with
  | none => .error ⟨400, "Geçersiz Görev ID formatı."⟩
  | some tid =>
    match db.tasks.find? (fun t => t.id == tid && t.user_id == uid) with
    | none => .error ⟨404, "Görev bulunamadı."⟩
    | some r =>
      match row_to_task_response r (joinCategory db r) with
      | none => .error ⟨500, "Görev verisi işlenemedi: doğrulama."⟩
      | some resp => .ok resp

/-- Applying the dynamic `UPDATE tasks SET …` of `update_task`: every key of
the partial set is written (tags/images through `json.dumps`, a provided
category through its validated value `catVal`), and `updated_at` is
unconditionally set to `now` (server.py:1059). -/
def applyTaskUpdate (r : TaskRow) (u : TaskUpdate) (catVal : Option (Option Nat))
    (now : Nat) : TaskRow :=
  { r with
    title := match u.title with | some v => v | none => r.title
    description := match u.description with | some v => v | none => r.description
    category_id := match catVal with | some v => v | none => r.category_id
    tags := match u.tags with
      | some (some l) => jsonDumpsList l
      | some none => JsonListCell.nullCell
      | none => r.tags
    priority := match u.priority with | some v => v | none => r.priority
    status := match u.status with | some v => v | none => r.status
    completion_percentage := match u.completion_percentage with
      | some v => v | none => r.completion_percentage
    images := match u.images with
      | some (some l) => jsonDumpsList l
      | some none => JsonListCell.nullCell
      | none => r.images
    due_date := match u.due_date with | some v => v | none => r.due_date
    updated_at := now }

/-- State of the store after the dynamic
`UPDATE tasks SET … WHERE id = %s AND user_id = %s` of `update_task`
(server.py:1061-1073). -/
def dbAfterTaskUpdate (db : Db) (now uid tid : Nat) (tu : TaskUpdate)
    (catVal : Option (Option Nat)) : Db :=
  { db with tasks := db.tasks.map fun t =>
      if t.id == tid && t.user_id == uid then applyTaskUpdate t tu catVal now
      else t }

/-- Tail of `update_task` after id parsing, ownership lookup and category
revalidation (server.py:1056-1098): empty-set check (400), the dynamic
UPDATE with `RETURNING id`, commit, re-select and row conversion.  The commit
(line 1075) precedes the re-select, so a conversion failure keeps the
committed update. -/
def update_task_apply (db : Db) (now uid tid : Nat) (tu : TaskUpdate)
    (catVal : Option (Option Nat)) : Except ApiError TaskResponse × Db :=
  if tu.isEmptySet then
    (.error ⟨400, "Güncellenecek alan yok."⟩, db)
  else
    match (dbAfterTaskUpdate db now uid tid tu catVal).tasks.find?
        (fun t => t.id == tid && t.user_id == uid) with
    | none =>
      (.error ⟨500, "Görev güncellenemedi veya ID geri alınamadı."⟩, db)
    | some r =>
      match row_to_task_response r
          (joinCategory (dbAfterTaskUpdate db now uid tid tu catVal) r) with
      | none =>
        (.error ⟨500, "Görev güncelleme verisi işlenirken hata: doğrulama."⟩,
         dbAfterTaskUpdate db now uid tid tu catVal)
      | some resp => (.ok resp, dbAfterTaskUpdate db now uid tid tu catVal)

/-- Handler `update_task` (server.py:1018-1114).  Source order: uuid parse (400),
ownership lookup (404), category revalidation when the partial set carries a
category (`updateCategoryCheck`; an explicit null skips validation and is
written as NULL), then `update_task_apply`. -/
def update_task (db : Db) (now : Nat) (uid : Nat) (task_id : String)
    (task_update : TaskUpdate) : Except ApiError TaskResponse × Db :=
  match pyUUIDParse task_id with
  | none => (.error ⟨400, "Geçersiz Görev ID formatı."⟩, db)
  | some tid =>
    match db.tasks.find? (fun t => t.id == tid && t.user_id == uid) with
    | none => (.error ⟨404, "Görev bulunamadı veya size ait değil."⟩, db)
    | some _ =>
      match (match task_update.category_id with
             | none => Except.ok none
             | some none => Except.ok (some none)
             | some (some s) => (updateCategoryCheck db uid s).map some :
             Except ApiError (Option (Option Nat))) with
      | .error e => (.error e, db)
      | .ok catVal => update_task_apply db now uid tid task_update catVal

/-- Handler `delete_task` (server.py:1116-1174): uuid parse (400), existence check
scoped to the caller (404 — identical whether the row is absent or foreign),
then the delete.  The `rowcount == 0` branch after a successful existence
check is unreachable on a single connection. -/
def delete_task (db : Db) (uid : Nat) (task_id : String) :
    Except ApiError Unit × Db :=
  match pyUUIDParse task_id with
  | none => (.error ⟨400, "Geçersiz Görev ID formatı."⟩, db)
  | some tid =>
    if db.tasks.any (fun t => t.id == tid && t.user_id == uid) then
      (.ok (), { db with tasks := db.tasks.filter fun t =>
        !(t.id == tid && t.user_id == uid) })
    else
      (.error ⟨404, "Görev bulunamadı veya size ait değil."⟩, db)

/-! General lemmas about the list operations the handlers use. -/

theorem find?_map_ite {α : Type} (l : List α) (p : α → Bool) (f : α → α)
    (hp : ∀ r, p (f r) = p r) :
    (l.map fun r => if p r then f r else r).find? p = (l.find? p).map f := by
  induction l with
  | nil => rfl
  | cons a t ih =>
    by_cases h : p a = true
    · simp [List.find?, h, hp a]
    · simp only [Bool.not_eq_true] at h
      simp [List.find?, h, ih]

theorem find?_append_left_none {α : Type} (l₁ l₂ : List α) (p : α → Bool)
    (h : ∀ x ∈ l₁, p x = false) :
    (l₁ ++ l₂).find? p = l₂.find? p := by
  induction l₁ with
  | nil => rfl
  | cons a t ih =>
    have ha := h a (List.mem_cons_self a t)
    simp only [List.cons_append, List.find?, ha]
    exact ih fun x hx => h x (List.mem_cons_of_mem a hx)

theorem find?_update_tasks (l : List TaskRow) (tid uid : Nat)
    (f : TaskRow → TaskRow)
    (hf : ∀ r, (f r).id = r.id ∧ (f r).user_id = r.user_id) :
    (l.map fun t => if t.id == tid && t.user_id == uid then f t else t).find?
        (fun t => t.id == tid && t.user_id == uid)
      = (l.find? fun t => t.id == tid && t.user_id == uid).map f := by
  refine find?_map_ite l _ f ?_
  intro r
  rw [(hf r).1, (hf r).2]

/-- The re-select of `update_task` finds exactly the updated row. -/
theorem dbAfterTaskUpdate_find (db : Db) (now uid tid : Nat) (tu : TaskUpdate)
    (cv : Option (Option Nat)) (old : TaskRow)
    (hfind : db.tasks.find? (fun t => t.id == tid && t.user_id == uid) = some old) :
    (dbAfterTaskUpdate db now uid tid tu cv).tasks.find?
        (fun t => t.id == tid && t.user_id == uid)
      = some (applyTaskUpdate old tu cv now) := by
  unfold dbAfterTaskUpdate
  dsimp only
  rw [find?_update_tasks db.tasks tid uid
      (fun t => applyTaskUpdate t tu cv now) (fun r => ⟨rfl, rfl⟩), hfind]
  rfl

/-- The freshly inserted task row always converts to a response carrying the
request's tags and images verbatim (its four Pydantic-required columns are
non-null by construction, and the tags/images pipeline is
`json.dumps` on write followed by `parse_json_list_field` on read). -/
theorem newTaskRow_response_some (d : Db) (now taskId uid : Nat)
    (t : TaskCreate) (catOpt : Option Nat) :
    ∃ r2, row_to_task_response (newTaskRow now taskId uid t catOpt)
        (joinCategory d (newTaskRow now taskId uid t catOpt)) = some r2
      ∧ r2.tags = t.tags ∧ r2.images = t.images :=
  ⟨_, rfl, rfl, rfl⟩

/-- The owner-scoped lookup after an insert with a fresh id finds exactly the
inserted row. -/
theorem dbAfterTaskInsert_find_owned (db : Db) (now taskId uid : Nat)
    (t : TaskCreate) (catOpt : Option Nat)
    (hdup : db.tasks.any (fun r => r.id == taskId) = false) :
    (dbAfterTaskInsert db now taskId uid t catOpt).tasks.find?
        (fun r => r.id == taskId && r.user_id == uid)
      = some (newTaskRow now taskId uid t catOpt) := by
  unfold dbAfterTaskInsert
  dsimp only
  rw [find?_append_left_none]
  · simp [List.find?, newTaskRow]
  · intro x hx
    have hx2 : (x.id == taskId) = false := by
      simpa using List.any_eq_false.mp hdup x hx
    simp [hx2]

/-- The id-scoped re-select of `create_task` finds exactly the inserted
row. -/
theorem dbAfterTaskInsert_find_id (db : Db) (now taskId uid : Nat)
    (t : TaskCreate) (catOpt : Option Nat)
    (hdup : db.tasks.any (fun r => r.id == taskId) = false) :
    (dbAfterTaskInsert db now taskId uid t catOpt).tasks.find?
        (fun r => r.id == taskId)
      = some (newTaskRow now taskId uid t catOpt) := by
  unfold dbAfterTaskInsert
  dsimp only
  rw [find?_append_left_none]
  · simp [List.find?, newTaskRow]
  · intro x hx
    simpa using List.any_eq_false.mp hdup x hx

/-! Concrete fixtures used by witnesses and counterexamples. -/

def dbEmpty : Db := { users := [], categories := [], tasks := [] }

/-- Canonical rendering of uuid value 1. -/
def uuidOne : String := "00000000-0000-0000-0000-000000000001"

/-- Canonical rendering of uuid value 5. -/
def uuidFive : String := "00000000-0000-0000-0000-000000000005"

def sampleTask : TaskRow :=
  { id := 1, user_id := 10, title := some "Buy milk", description := some "",
    category_id := none, tags := jsonDumpsList ["a", "b"],
    priority := some "Orta", status := some "Yapılacak",
    completion_percentage := some 0, images := jsonDumpsList [],
    due_date := none, created_at := 100, updated_at := 100 }

/-- Response produced for `sampleTask` by `row_to_task_response`. -/
def sampleTaskResp : TaskResponse :=
  { id := 1, user_id := 10, title := "Buy milk", description := some "",
    tags := ["a", "b"], priority := "Orta", status := "Yapılacak",
    completion_percentage := 0, images := [], due_date := none,
    created_at := 100, updated_at := 100, category_id := none,
    category_name := none, category_color := none, category_icon := none }

def sampleCategory : CategoryRow :=
  { id := 5, user_id := some 10, name := some "Genel", color := some "#808080",
    icon := some "list", created_at := 50 }

/-- One user (id 10) owning one task (id 1) and one category (id 5). -/
def dbOne : Db :=
  { users := [], categories := [sampleCategory], tasks := [sampleTask] }

def aliceRow : UserRow :=
  { id := 7, username := "alice", email := none,
    password_hash := hash_password 3 "pw123", created_at := 0 }

def dbAlice : Db := { users := [aliceRow], categories := [], tasks := [] }

/-! Claim theorems. -/

/-- C9: a login attempt that fails — whether because the username is unknown
or because the username exists and the password hash does not verify — yields
the single `Unauthenticated` (401) response of server.py:608-610, with one
fixed detail string.  Both failure causes are handled by the very same
`if not user_row or not verify_password(...)` branch, so their responses are
literally the same value: nothing leaks about which of the two failed. -/
theorem login_failure_uniform (db : Db) (secret : String) (now : Nat)
    (inp : UserLogin)
    (h : db.users.find? (fun u => u.username == inp.username) = none
      ∨ ∃ u, db.users.find? (fun u2 => u2.username == inp.username) = some u
          ∧ verify_password inp.password u.password_hash = false) :
    login db secret now inp
      = .error ⟨401, "Kullanıcı adı veya şifre hatalı."⟩ := by
  unfold login
  rcases h with h | ⟨u, hu, hv⟩
  · rw [h]
  · rw [hu]
    simp [hv]

/-- Witness for C9: in a store holding only the user `alice`, logging in as
the unknown `bob`, and as `alice` with a wrong password, both produce the one
401 response. -/
theorem login_failure_uniform_witness :
    login dbAlice "s" 0 { username := "bob", password := "pw123" }
      = .error ⟨401, "Kullanıcı adı veya şifre hatalı."⟩
    ∧ login dbAlice "s" 0 { username := "alice", password := "wrong" }
      = .error ⟨401, "Kullanıcı adı veya şifre hatalı."⟩ :=
  ⟨login_failure_uniform dbAlice "s" 0 _ (Or.inl (by rfl)),
   login_failure_uniform dbAlice "s" 0 _ (Or.inr ⟨aliceRow, by rfl, by rfl⟩)⟩

/-- C8 counterexample: the claim — every task-list request whose category
filter does not parse yields the empty list — fails for the empty-string
filter.  `uuid.UUID("")` raises `ValueError` (the filter does not parse), yet
`if category_id:` treats `""` as falsy, skips the filter entirely, and the
full task list comes back: for user 10 of `dbOne` the result is the one-task
list, not `[]` (and not an error either). -/
theorem get_tasks_empty_string_filter_counterexample :
    pyUUIDParse "" = none
    ∧ get_tasks dbOne 10 (some "") none none = .ok [sampleTaskResp]
    ∧ (Except.ok [sampleTaskResp] : Except ApiError (List TaskResponse))
        ≠ .ok [] := by
  refine ⟨rfl, rfl, ?_⟩
  simp

/-- C8 (amended): for every task-list request whose category filter is
non-empty and does not parse as a well-formed id, the result is the empty
list — not an error, and no other outcome is possible for that input (the
handler returns `[]` at server.py:947-949 before touching the database).  An
empty-string filter is instead treated as if no filter had been supplied. -/
theorem get_tasks_unparseable_filter_empty (db : Db) (uid : Nat) (s : String)
    (priority status : Option String)
    (hs : s ≠ "") (hp : pyUUIDParse s = none) :
    get_tasks db uid (some s) priority status = .ok [] := by
  have h1 : (s != "") = true := by simpa using hs
  simp only [get_tasks, h1, hp, if_true]

/-- Witness for C8 (amended): the truthy unparseable filter `zzz` yields the
empty list even though user 10 owns a task. -/
theorem get_tasks_unparseable_filter_empty_witness :
    get_tasks dbOne 10 (some "zzz") none none = .ok [] :=
  get_tasks_unparseable_filter_empty dbOne 10 "zzz" none none (by decide) (by rfl)

/-- C5 counterexample: the claim — every category or task update whose
partial field set is empty fails with `BadRequest` — is false, because the
ownership lookup precedes the empty-set check (server.py:725-735): an
empty-set update aimed at a non-existent (here: any) category id fails with
`NotFound` (404), not `BadRequest` (400). -/
theorem empty_update_set_counterexample :
    (update_category dbEmpty 1 uuidFive {}).1
      = .error ⟨404, "Kategori bulunamadı veya size ait değil."⟩
    ∧ (404 : Nat) ≠ 400 := ⟨rfl, by decide⟩

/-- C5 (amended): for every category update and every task update whose
partial field set is empty (for tasks, `updated_at` is only added after the
emptiness check, so it is automatically excluded), **provided the target row
exists and is owned by the caller**, the operation fails with `BadRequest`
(400, `Güncellenecek alan yok.`) and the database is unchanged.  When the
target is absent or foreign the earlier ownership check wins and the outcome
is `NotFound` instead (see the counterexample). -/
theorem empty_update_set_bad_request (db : Db) (now uid : Nat)
    (cs ts : String) (cid tid : Nat) (cu : CategoryUpdate) (tu : TaskUpdate)
    (k : CategoryRow) (t0 : TaskRow)
    (hc : pyUUIDParse cs = some cid)
    (hk : db.categories.find? (fun k2 => k2.id == cid && k2.user_id == some uid)
        = some k)
    (hce : cu.isEmptySet = true)
    (ht : pyUUIDParse ts = some tid)
    (ht0 : db.tasks.find? (fun t => t.id == tid && t.user_id == uid) = some t0)
    (hte : tu.isEmptySet = true) :
    update_category db uid cs cu = (.error ⟨400, "Güncellenecek alan yok."⟩, db)
    ∧ update_task db now uid ts tu
        = (.error ⟨400, "Güncellenecek alan yok."⟩, db) := by
  have hcat9 : tu.category_id = none := by
    unfold TaskUpdate.isEmptySet at hte
    simp only [Bool.and_eq_true, Option.isNone_iff_eq_none] at hte
    exact hte.1.1.1.1.1.1.2
  constructor
  · simp only [update_category, hc, hk, hce, if_true]
  · simp only [update_task, update_task_apply, ht, ht0, hcat9, hte, if_true]

/-- Witness for C5 (amended): empty-set updates against the owned category 5
and the owned task 1 of `dbOne` both fail with the 400 response. -/
theorem empty_update_set_bad_request_witness :
    update_category dbOne 10 uuidFive {}
      = (.error ⟨400, "Güncellenecek alan yok."⟩, dbOne)
    ∧ update_task dbOne 200 10 uuidOne {}
      = (.error ⟨400, "Güncellenecek alan yok."⟩, dbOne) :=
  empty_update_set_bad_request dbOne 200 10 uuidFive uuidOne 5 1 {} {}
    sampleCategory sampleTask (by rfl) (by rfl) (by rfl) (by rfl) (by rfl) (by rfl)

/-- C2 counterexample: the claim — a category id in a task update is
revalidated exactly as in create, with the same accept/reject outcome and
`BadRequest` for a malformed id in both — is false for malformed ids.
`update_task` calls `uuid.UUID` and turns the `ValueError` into HTTP 400
(server.py:1051-1053), but `create_task` never parses: it ships the raw
string to SQL, the uuid cast fails inside `cur.execute`, and the resulting
`psycopg2.Error` is surfaced as HTTP 500 (server.py:905-909).  At the input
`not-a-uuid` the two operations answer with different statuses. -/
theorem category_validation_divergence_counterexample :
    (create_task_endpoint dbOne 300 2 10
        { title := "X", category_id := some "not-a-uuid" }).1
      = .error ⟨500, "Veritabanı hatası: geçersiz uuid metin gösterimi."⟩
    ∧ (update_task dbOne 300 10 uuidOne
        { category_id := some (some "not-a-uuid") }).1
      = .error ⟨400, "Geçersiz kategori ID formatı."⟩
    ∧ (ApiError.mk 500 "Veritabanı hatası: geçersiz uuid metin gösterimi.").status
        ≠ 400 := ⟨rfl, rfl, by decide⟩

/-- C2 (amended): for category id inputs accepted by both uuid grammars
(every such input has 32 hex digits, so it is non-empty and passes create's
truthiness guard: both handlers then run exactly the extracted validation
blocks), the create-path and update-path category validations are literally
the same function of the store — `NotFound` when the id does not resolve to a
category owned by the caller or global, acceptance of the same parsed id
otherwise.  The reject paths diverge in three ways, stated on the handlers
themselves: an update whose partial set carries any unparseable category id
fails `BadRequest` (400); a create whose body carries a **non-empty** id
rejected by the PostgreSQL grammar surfaces the SQL cast failure as
`Internal` (500); and a create whose body carries the **empty-string** id —
also rejected by both grammars — skips validation entirely
(`if task_in.category_id:` is falsy at `""`, server.py:847) and creation
succeeds with a NULL category reference. -/
theorem category_validation_create_update (db : Db) (now taskId uid : Nat)
    (t : TaskCreate) (tu : TaskUpdate) (ts s : String) (tid c : Nat)
    (old : TaskRow) :
    (pyUUIDParse s = some c → pgUUIDParse s = some c →
      createCategoryCheck db uid s = updateCategoryCheck db uid s)
    ∧ (pyUUIDParse ts = some tid →
       db.tasks.find? (fun r => r.id == tid && r.user_id == uid) = some old →
       tu.category_id = some (some s) →
       pyUUIDParse s = none →
       update_task db now uid ts tu
         = (.error ⟨400, "Geçersiz kategori ID formatı."⟩, db))
    ∧ (t.category_id = some s → s ≠ "" → pgUUIDParse s = none →
       create_task db now taskId uid t
         = (.error ⟨500, "Veritabanı hatası: geçersiz uuid metin gösterimi."⟩,
            db))
    ∧ (t.category_id = some "" →
       db.tasks.any (fun r => r.id == taskId) = false →
       ∃ resp db2, create_task db now taskId uid t = (.ok resp, db2)
         ∧ resp.category_id = none) := by
  refine ⟨?_, ?_, ?_, ?_⟩
  · intro hpy hpg
    simp only [createCategoryCheck, updateCategoryCheck, hpy, hpg]
  · intro h1 h2 h3 h4
    simp only [update_task, h1, h2, h3, updateCategoryCheck, h4, Except.map]
  · intro hcat hs hpg
    have hs2 : (s != "") = true := by simpa using hs
    simp only [create_task, hcat, hs2, if_true, createCategoryCheck, hpg]
  · intro hcat hdup
    have hff : (("" : String) != "") = false := rfl
    simp only [create_task, hcat, hff, Bool.false_eq_true, if_false,
      create_task_insert, hdup]
    rw [dbAfterTaskInsert_find_id db now taskId uid t none hdup]
    exact ⟨_, _, rfl, rfl⟩

/-- Witness for C2 (amended): all four conjuncts at concrete inputs — the
canonical `uuidFive` (both grammars accept, same validation), the non-empty
malformed `not-a-uuid` (update 400 versus create 500 on the handlers), and
the empty-string id (creation succeeds, category NULL). -/
theorem category_validation_create_update_witness :
    createCategoryCheck dbEmpty 1 uuidFive = updateCategoryCheck dbEmpty 1 uuidFive
    ∧ update_task dbOne 300 10 uuidOne { category_id := some (some "not-a-uuid") }
        = (.error ⟨400, "Geçersiz kategori ID formatı."⟩, dbOne)
    ∧ create_task dbEmpty 0 2 10 { title := "X", category_id := some "not-a-uuid" }
        = (.error ⟨500, "Veritabanı hatası: geçersiz uuid metin gösterimi."⟩,
           dbEmpty)
    ∧ (∃ resp db2,
        create_task dbEmpty 0 2 10 { title := "X", category_id := some "" }
          = (.ok resp, db2)
        ∧ resp.category_id = none) :=
  ⟨(category_validation_create_update dbEmpty 0 0 1 { title := "X" } {}
      "" uuidFive 0 5 sampleTask).1 (by rfl) (by rfl),
   (category_validation_create_update dbOne 300 0 10 { title := "X" }
      { category_id := some (some "not-a-uuid") } uuidOne "not-a-uuid" 1 0
      sampleTask).2.1 (by rfl) (by rfl) (by rfl) (by rfl),
   (category_validation_create_update dbEmpty 0 2 10
      { title := "X", category_id := some "not-a-uuid" } {} "" "not-a-uuid"
      0 0 sampleTask).2.2.1 (by rfl) (by decide) (by rfl),
   (category_validation_create_update dbEmpty 0 2 10
      { title := "X", category_id := some "" } {} "" "" 0 0
      sampleTask).2.2.2 (by rfl) (by rfl)⟩

/-- C3: a task-creation request whose completion_percentage lies outside
[0, 100] violates the Pydantic constraint `Field(0, ge=0, le=100)`
(server.py:222); FastAPI rejects the body with the 422 validation response
before `create_task` is entered, so no insert happens and the database is
returned unchanged.  The 422 rejection is the code's realisation of the
spec's `BadRequest` taxon for out-of-range values (spec §7), as the second
conjunct records. -/
theorem create_task_out_of_range_rejected (db : Db) (now taskId uid : Nat)
    (t : TaskCreate)
    (h : t.completion_percentage < 0 ∨ 100 < t.completion_percentage) :
    create_task_endpoint db now taskId uid t = (.error validationError422, db)
    ∧ isSpecBadRequest validationError422 = true := by
  refine ⟨?_, rfl⟩
  have hb : taskCreateBodyOk t = false := by
    unfold taskCreateBodyOk
    rcases h with h | h
    · simp [decide_eq_false (not_le.mpr h)]
    · simp [decide_eq_false (not_le.mpr h)]
  simp only [create_task_endpoint, hb, Bool.false_eq_true, if_false]

/-- Witness for C3: creating a task with completion_percentage 150 is
rejected with the validation error and leaves the empty store unchanged. -/
theorem create_task_out_of_range_rejected_witness :
    create_task_endpoint dbEmpty 0 2 10
        { title := "X", completion_percentage := 150 }
      = (.error validationError422, dbEmpty)
    ∧ isSpecBadRequest validationError422 = true :=
  create_task_out_of_range_rejected dbEmpty 0 2 10 _ (Or.inr (by decide))

/-- C10: a task update whose partial field set is exactly the category
reference explicitly set to null succeeds whenever the task exists, is owned
by the caller and is a well-formed row, and it clears the stored category
reference (and the joined category fields of the response) to absent.  No
category validation is performed for the null value: the statement holds for
every store, with no hypothesis whatsoever on `db.categories` (server.py:1043
only validates when the supplied value `is not None`). -/
theorem update_task_null_category_clears (db : Db) (now uid : Nat)
    (ts : String) (tid : Nat) (old : TaskRow)
    (ht : pyUUIDParse ts = some tid)
    (hfind : db.tasks.find? (fun t => t.id == tid && t.user_id == uid) = some old)
    (httl : old.title.isSome = true) (hpr : old.priority.isSome = true)
    (hst : old.status.isSome = true)
    (hcp : old.completion_percentage.isSome = true) :
    ∃ resp db2,
      update_task db now uid ts { category_id := some none } = (.ok resp, db2)
      ∧ resp.category_id = none
      ∧ resp.category_name = none
      ∧ db2.tasks.find? (fun t => t.id == tid && t.user_id == uid)
          = some (applyTaskUpdate old { category_id := some none } (some none) now)
      ∧ (applyTaskUpdate old { category_id := some none }
          (some none) now).category_id = none := by
  obtain ⟨ttl, httl2⟩ := Option.isSome_iff_exists.mp httl
  obtain ⟨pr, hpr2⟩ := Option.isSome_iff_exists.mp hpr
  obtain ⟨st, hst2⟩ := Option.isSome_iff_exists.mp hst
  obtain ⟨cp, hcp2⟩ := Option.isSome_iff_exists.mp hcp
  have hEmpty : ({ category_id := some none } : TaskUpdate).isEmptySet = false := rfl
  have hfound := dbAfterTaskUpdate_find db now uid tid { category_id := some none }
    (some none) old hfind
  have hconv : ∀ d : Db,
      row_to_task_response
          (applyTaskUpdate old { category_id := some none } (some none) now)
          (joinCategory d
            (applyTaskUpdate old { category_id := some none } (some none) now))
        = some
          { id := old.id, user_id := old.user_id, title := ttl,
            description := old.description,
            tags := parse_json_list_field old.tags, priority := pr, status := st,
            completion_percentage := cp,
            images := parse_json_list_field old.images, due_date := old.due_date,
            created_at := old.created_at, updated_at := now, category_id := none,
            category_name := none, category_color := none,
            category_icon := none } := by
    intro d
    unfold row_to_task_response joinCategory applyTaskUpdate
    dsimp only
    rw [httl2, hpr2, hst2, hcp2]
    rfl
  simp only [update_task, update_task_apply, ht, hfind, hEmpty,
    Bool.false_eq_true, if_false, hfound, hconv]
  exact ⟨_, _, rfl, rfl, rfl, hfound, rfl⟩

/-- Witness for C10: clearing the category of task 1 of `dbOne`. -/
theorem update_task_null_category_clears_witness :
    ∃ resp db2,
      update_task dbOne 200 10 uuidOne { category_id := some none }
        = (.ok resp, db2)
      ∧ resp.category_id = none
      ∧ resp.category_name = none
      ∧ db2.tasks.find? (fun t => t.id == 1 && t.user_id == 10)
          = some (applyTaskUpdate sampleTask { category_id := some none }
              (some none) 200)
      ∧ (applyTaskUpdate sampleTask { category_id := some none }
          (some none) 200).category_id = none :=
  update_task_null_category_clears dbOne 200 10 uuidOne 1 sampleTask
    (by rfl) (by rfl) (by rfl) (by rfl) (by rfl) (by rfl)

/-- Inversion of a successful `update_task_apply`: the returned store is the
committed `dbAfterTaskUpdate`. -/
theorem update_task_apply_ok_inv (db : Db) (now uid tid : Nat) (old : TaskRow)
    (tu : TaskUpdate) (cv : Option (Option Nat)) (resp : TaskResponse) (db2 : Db)
    (hfind : db.tasks.find? (fun t => t.id == tid && t.user_id == uid) = some old)
    (hok : update_task_apply db now uid tid tu cv = (.ok resp, db2)) :
    db2 = dbAfterTaskUpdate db now uid tid tu cv := by
  unfold update_task_apply at hok
  by_cases he : tu.isEmptySet = true
  · rw [if_pos he] at hok
    exact absurd hok (by simp)
  · rw [if_neg he] at hok
    rw [dbAfterTaskUpdate_find db now uid tid tu cv old hfind] at hok
    simp only [] at hok
    split at hok
    · exact absurd hok (by simp)
    · rw [Prod.mk.injEq] at hok
      exact hok.2.symm

/-- C4: frame property of a successful task update.  The committed row is
`applyTaskUpdate old tu cv now` for the validated category value `cv`:
`updated_at` is unconditionally set to the update time `now` — even when the
supplied values equal the old ones — while `id`, `user_id`, `created_at` and
every field NOT in the partial set keep their previous stored values
byte-for-byte.  The claim's single-field case is the instance in which eight
of the nine field implications fire, leaving every other column identical and
only `updated_at` advanced. -/
theorem update_task_frame (db : Db) (now uid : Nat) (ts : String)
    (tid : Nat) (old : TaskRow) (tu : TaskUpdate) (resp : TaskResponse)
    (db2 : Db)
    (ht : pyUUIDParse ts = some tid)
    (hfind : db.tasks.find? (fun t => t.id == tid && t.user_id == uid) = some old)
    (hok : update_task db now uid ts tu = (.ok resp, db2)) :
    ∃ cv,
      db2.tasks.find? (fun t => t.id == tid && t.user_id == uid)
          = some (applyTaskUpdate old tu cv now)
      ∧ (applyTaskUpdate old tu cv now).updated_at = now
      ∧ (applyTaskUpdate old tu cv now).id = old.id
      ∧ (applyTaskUpdate old tu cv now).user_id = old.user_id
      ∧ (applyTaskUpdate old tu cv now).created_at = old.created_at
      ∧ (tu.title = none → (applyTaskUpdate old tu cv now).title = old.title)
      ∧ (tu.description = none →
          (applyTaskUpdate old tu cv now).description = old.description)
      ∧ (tu.category_id = none →
          (applyTaskUpdate old tu cv now).category_id = old.category_id)
      ∧ (tu.tags = none → (applyTaskUpdate old tu cv now).tags = old.tags)
      ∧ (tu.priority = none →
          (applyTaskUpdate old tu cv now).priority = old.priority)
      ∧ (tu.status = none → (applyTaskUpdate old tu cv now).status = old.status)
      ∧ (tu.completion_percentage = none →
          (applyTaskUpdate old tu cv now).completion_percentage
            = old.completion_percentage)
      ∧ (tu.images = none → (applyTaskUpdate old tu cv now).images = old.images)
      ∧ (tu.due_date = none →
          (applyTaskUpdate old tu cv now).due_date = old.due_date) := by
  simp only [update_task, ht, hfind] at hok
  have hcv : ∃ cv, update_task_apply db now uid tid tu cv = (.ok resp, db2)
      ∧ (tu.category_id = none → cv = none) := by
    rcases hc : tu.category_id with _ | oc
    · simp only [hc] at hok
      exact ⟨none, hok, fun _ => rfl⟩
    · rcases oc with _ | s
      · simp only [hc] at hok
        refine ⟨some none, hok, fun hno => ?_⟩
        simp at hno
      · simp only [hc] at hok
        rcases hchk : updateCategoryCheck db uid s with e | c
        · simp only [hchk, Except.map] at hok
          exact absurd hok (by simp)
        · simp only [hchk, Except.map] at hok
          refine ⟨some c, hok, fun hno => ?_⟩
          simp at hno
  obtain ⟨cv, hap, hcvn⟩ := hcv
  have hdb2 := update_task_apply_ok_inv db now uid tid old tu cv resp db2 hfind hap
  refine ⟨cv, ?_, rfl, rfl, rfl, rfl, ?_, ?_, ?_, ?_, ?_, ?_, ?_, ?_, ?_⟩
  · rw [hdb2]
    exact dbAfterTaskUpdate_find db now uid tid tu cv old hfind
  · intro h; simp [applyTaskUpdate, h]
  · intro h; simp [applyTaskUpdate, h]
  · intro h; rw [hcvn h]; simp [applyTaskUpdate]
  · intro h; simp [applyTaskUpdate, h]
  · intro h; simp [applyTaskUpdate, h]
  · intro h; simp [applyTaskUpdate, h]
  · intro h; simp [applyTaskUpdate, h]
  · intro h; simp [applyTaskUpdate, h]
  · intro h; simp [applyTaskUpdate, h]

/-- Row 1 of `dbOne` after the witness update of C4. -/
def sampleTaskDone : TaskRow :=
  { sampleTask with status := some "Tamamlandı", updated_at := 200 }

def dbOneDone : Db :=
  { users := [], categories := [sampleCategory], tasks := [sampleTaskDone] }

/-- Response of the witness update of C4. -/
def sampleRespDone : TaskResponse :=
  { sampleTaskResp with status := "Tamamlandı", updated_at := 200 }

/-- Witness for C4: updating only `status` of task 1 leaves every other
column byte-identical and advances `updated_at` to the update time 200. -/
theorem update_task_frame_witness :
    ∃ cv,
      dbOneDone.tasks.find? (fun t => t.id == 1 && t.user_id == 10)
          = some (applyTaskUpdate sampleTask
              { status := some (some "Tamamlandı") } cv 200)
      ∧ (applyTaskUpdate sampleTask { status := some (some "Tamamlandı") }
          cv 200).updated_at = 200
      ∧ (applyTaskUpdate sampleTask { status := some (some "Tamamlandı") }
          cv 200).id = sampleTask.id
      ∧ (applyTaskUpdate sampleTask { status := some (some "Tamamlandı") }
          cv 200).user_id = sampleTask.user_id
      ∧ (applyTaskUpdate sampleTask { status := some (some "Tamamlandı") }
          cv 200).created_at = sampleTask.created_at
      ∧ (({ status := some (some "Tamamlandı") } : TaskUpdate).title = none →
          (applyTaskUpdate sampleTask { status := some (some "Tamamlandı") }
            cv 200).title = sampleTask.title)
      ∧ (({ status := some (some "Tamamlandı") } : TaskUpdate).description = none →
          (applyTaskUpdate sampleTask { status := some (some "Tamamlandı") }
            cv 200).description = sampleTask.description)
      ∧ (({ status := some (some "Tamamlandı") } : TaskUpdate).category_id = none →
          (applyTaskUpdate sampleTask { status := some (some "Tamamlandı") }
            cv 200).category_id = sampleTask.category_id)
      ∧ (({ status := some (some "Tamamlandı") } : TaskUpdate).tags = none →
          (applyTaskUpdate sampleTask { status := some (some "Tamamlandı") }
            cv 200).tags = sampleTask.tags)
      ∧ (({ status := some (some "Tamamlandı") } : TaskUpdate).priority = none →
          (applyTaskUpdate sampleTask { status := some (some "Tamamlandı") }
            cv 200).priority = sampleTask.priority)
      ∧ (({ status := some (some "Tamamlandı") } : TaskUpdate).status = none →
          (applyTaskUpdate sampleTask { status := some (some "Tamamlandı") }
            cv 200).status = sampleTask.status)
      ∧ (({ status := some (some "Tamamlandı") } : TaskUpdate).completion_percentage
            = none →
          (applyTaskUpdate sampleTask { status := some (some "Tamamlandı") }
            cv 200).completion_percentage = sampleTask.completion_percentage)
      ∧ (({ status := some (some "Tamamlandı") } : TaskUpdate).images = none →
          (applyTaskUpdate sampleTask { status := some (some "Tamamlandı") }
            cv 200).images = sampleTask.images)
      ∧ (({ status := some (some "Tamamlandı") } : TaskUpdate).due_date = none →
          (applyTaskUpdate sampleTask { status := some (some "Tamamlandı") }
            cv 200).due_date = sampleTask.due_date) :=
  update_task_frame dbOne 200 10 uuidOne 1 sampleTask
    { status := some (some "Tamamlandı") } sampleRespDone dbOneDone
    (by rfl) (by rfl) (by rfl)

/-- C1: for every authenticated caller `uid` and every (well-formed) task or
category id, if no row with that id is owned by the caller — because the row
is absent, or because it is owned by a different user — then `get`, `update`
and `delete` of tasks, and `update` and `delete` of categories, all fail with
`NotFound` (404) and leave the store unchanged.  The error value of each
operation is one constant, independent of which disjunct holds (and, for
updates, of the request body), so the response for a row owned by another
user is indistinguishable from the response for a non-existent id: no
existence leak.  (Categories have no single-row `get` endpoint in the
source, so the claim's `get` component is vacuous for them; an id in neither
uuid grammar is rejected earlier with 400 by every one of these handlers, so
well-formedness is the hypothesis under which the lookup happens at all.) -/
theorem ownership_scoped_not_found (db : Db) (now uid : Nat) (ts cs : String)
    (tid cid : Nat)
    (ht : pyUUIDParse ts = some tid)
    (hc : pyUUIDParse cs = some cid)
    (htask : ∀ t ∈ db.tasks, ¬(t.id = tid ∧ t.user_id = uid))
    (hcat : ∀ k ∈ db.categories, ¬(k.id = cid ∧ k.user_id = some uid)) :
    get_task db ts uid = .error ⟨404, "Görev bulunamadı."⟩
    ∧ (∀ tu : TaskUpdate, update_task db now uid ts tu
        = (.error ⟨404, "Görev bulunamadı veya size ait değil."⟩, db))
    ∧ delete_task db uid ts
        = (.error ⟨404, "Görev bulunamadı veya size ait değil."⟩, db)
    ∧ (∀ cu : CategoryUpdate, update_category db uid cs cu
        = (.error ⟨404, "Kategori bulunamadı veya size ait değil."⟩, db))
    ∧ delete_category db uid cs
        = (.error ⟨404, "Kategori bulunamadı veya size ait değil."⟩, db) := by
  have hfT : db.tasks.find? (fun t => t.id == tid && t.user_id == uid) = none := by
    rw [List.find?_eq_none]
    intro t htm
    simpa using htask t htm
  have haT : db.tasks.any (fun t => t.id == tid && t.user_id == uid) = false := by
    rw [List.any_eq_false]
    intro t htm
    simpa using htask t htm
  have hfC : db.categories.find? (fun k => k.id == cid && k.user_id == some uid)
      = none := by
    rw [List.find?_eq_none]
    intro k hkm
    simpa using hcat k hkm
  have haC : db.categories.any (fun k => k.id == cid && k.user_id == some uid)
      = false := by
    rw [List.any_eq_false]
    intro k hkm
    simpa using hcat k hkm
  refine ⟨?_, fun tu => ?_, ?_, fun cu => ?_, ?_⟩
  · simp only [get_task, ht, hfT]
  · simp only [update_task, ht, hfT]
  · simp only [delete_task, ht, haT, Bool.false_eq_true, if_false]
  · simp only [update_category, hc, hfC]
  · simp only [delete_category, hc, haC, Bool.false_eq_true, if_false]

/-- Task 1 owned by user 2 — foreign to caller 1. -/
def foreignTask : TaskRow := { sampleTask with user_id := 2 }

/-- Category 5 owned by user 2 — foreign to caller 1. -/
def foreignCategory : CategoryRow := { sampleCategory with user_id := some 2 }

def dbForeign : Db :=
  { users := [], categories := [foreignCategory], tasks := [foreignTask] }

/-- Witness for C1: caller 1 against rows owned by user 2 (`dbForeign`) and
against the empty store (`dbEmpty`) gets the very same 404 responses —
foreign ownership and absence are indistinguishable. -/
theorem ownership_scoped_not_found_witness :
    get_task dbForeign uuidOne 1 = .error ⟨404, "Görev bulunamadı."⟩
    ∧ get_task dbEmpty uuidOne 1 = .error ⟨404, "Görev bulunamadı."⟩
    ∧ update_task dbForeign 300 1 uuidOne {}
        = (.error ⟨404, "Görev bulunamadı veya size ait değil."⟩, dbForeign)
    ∧ delete_task dbForeign 1 uuidOne
        = (.error ⟨404, "Görev bulunamadı veya size ait değil."⟩, dbForeign)
    ∧ update_category dbForeign 1 uuidFive {}
        = (.error ⟨404, "Kategori bulunamadı veya size ait değil."⟩, dbForeign)
    ∧ delete_category dbForeign 1 uuidFive
        = (.error ⟨404, "Kategori bulunamadı veya size ait değil."⟩, dbForeign) :=
  ⟨(ownership_scoped_not_found dbForeign 300 1 uuidOne uuidFive 1 5
      (by rfl) (by rfl) (by decide) (by decide)).1,
   (ownership_scoped_not_found dbEmpty 300 1 uuidOne uuidFive 1 5
      (by rfl) (by rfl) (by decide) (by decide)).1,
   (ownership_scoped_not_found dbForeign 300 1 uuidOne uuidFive 1 5
      (by rfl) (by rfl) (by decide) (by decide)).2.1 {},
   (ownership_scoped_not_found dbForeign 300 1 uuidOne uuidFive 1 5
      (by rfl) (by rfl) (by decide) (by decide)).2.2.1,
   (ownership_scoped_not_found dbForeign 300 1 uuidOne uuidFive 1 5
      (by rfl) (by rfl) (by decide) (by decide)).2.2.2.1 {},
   (ownership_scoped_not_found dbForeign 300 1 uuidOne uuidFive 1 5
      (by rfl) (by rfl) (by decide) (by decide)).2.2.2.2⟩

/-- C7: round-trip of tags and images.  Whenever task creation succeeds, the
creation response returns the supplied `tags` and `images` lists unchanged
and in order, and so does the subsequent `get` of the created task (through
the stored serialized form: `json.dumps` on insert, `parse_json_list_field`
on every read). -/
theorem create_roundtrip (db : Db) (now taskId uid : Nat) (t : TaskCreate)
    (resp : TaskResponse) (db2 : Db) (s : String)
    (hok : create_task_endpoint db now taskId uid t = (.ok resp, db2))
    (hs : pyUUIDParse s = some taskId) :
    resp.tags = t.tags ∧ resp.images = t.images
    ∧ ∃ resp2, get_task db2 s uid = .ok resp2
        ∧ resp2.tags = t.tags ∧ resp2.images = t.images := by
  unfold create_task_endpoint at hok
  by_cases hb : taskCreateBodyOk t = true
  case neg => rw [if_neg hb] at hok; exact absurd hok (by simp)
  rw [if_pos hb] at hok
  unfold create_task at hok
  have hins : ∃ catOpt, create_task_insert db now taskId uid t catOpt
      = (.ok resp, db2) := by
    rcases hcat : t.category_id with _ | cs
    · simp only [hcat] at hok
      exact ⟨none, hok⟩
    · by_cases hse : (cs != "") = true
      · rcases hchk : createCategoryCheck db uid cs with e | co
        · simp only [hcat, hse, if_true, hchk] at hok
          exact absurd hok (by simp)
        · simp only [hcat, hse, if_true, hchk] at hok
          exact ⟨co, hok⟩
      · simp only [hcat, hse] at hok
        exact ⟨none, hok⟩
  obtain ⟨catOpt, hins⟩ := hins
  unfold create_task_insert at hins
  by_cases hdup : db.tasks.any (fun r => r.id == taskId) = true
  · rw [if_pos hdup] at hins
    exact absurd hins (by simp)
  · have hdup2 : db.tasks.any (fun r => r.id == taskId) = false := by
      simpa using hdup
    rw [if_neg hdup] at hins
    rw [dbAfterTaskInsert_find_id db now taskId uid t catOpt hdup2] at hins
    simp only [] at hins
    obtain ⟨r2, hr2, htags, himgs⟩ :=
      newTaskRow_response_some (dbAfterTaskInsert db now taskId uid t catOpt)
        now taskId uid t catOpt
    rw [hr2] at hins
    simp only [] at hins
    rw [Prod.mk.injEq] at hins
    obtain ⟨h1, h2⟩ := hins
    have hresp : r2 = resp := by
      simpa using h1
    refine ⟨hresp ▸ htags, hresp ▸ himgs, ?_⟩
    rw [← h2]
    have hfind2 := dbAfterTaskInsert_find_owned db now taskId uid t catOpt hdup2
    simp only [get_task, hs, hfind2]
    obtain ⟨r3, hr3, htags3, himgs3⟩ :=
      newTaskRow_response_some (dbAfterTaskInsert db now taskId uid t catOpt)
        now taskId uid t catOpt
    rw [hr3]
    exact ⟨r3, rfl, htags3, himgs3⟩

def c7task : TaskCreate :=
  { title := "Buy milk", tags := ["a", "b"], images := ["img1"] }

def c7db2 : Db :=
  { users := [], categories := [], tasks := [newTaskRow 100 1 10 c7task none] }

def c7resp : TaskResponse :=
  { id := 1, user_id := 10, title := "Buy milk", description := some "",
    tags := ["a", "b"], priority := "Orta", status := "Yapılacak",
    completion_percentage := 0, images := ["img1"], due_date := none,
    created_at := 100, updated_at := 100, category_id := none,
    category_name := none, category_color := none, category_icon := none }

/-- Witness for C7: creating a task with tags `["a", "b"]` and images
`["img1"]` round-trips both lists through create and the subsequent get. -/
theorem create_roundtrip_witness :
    c7resp.tags = c7task.tags ∧ c7resp.images = c7task.images
    ∧ ∃ resp2, get_task c7db2 uuidOne 10 = .ok resp2
        ∧ resp2.tags = c7task.tags ∧ resp2.images = c7task.images :=
  create_roundtrip dbEmpty 100 1 10 c7task c7resp c7db2 uuidOne
    (by rfl) (by rfl)

/-- C6: every successful registration returns a token whose embedded
principal resolves back to the created user through the auth gate — the
token is signed with the server secret, carries the new user id, and expires
30 days after issuance, and the gate re-checks the principal against the
`users` table, where the new row now exists — and seeds exactly three
default categories (`Genel`, `İş`, `Kişisel`) owned by the new user.  The
resolution hypothesis `now2 < now + 86400 * 30` is validity within the
30-day window; `hfresh` says the drawn user id owns no pre-existing
category, which pins the owned-category count to exactly three. -/
theorem register_token_resolves (db : Db) (now salt uid c1 c2 c3 : Nat)
    (secret : String) (inp : UserRegister) (td : TokenData) (db2 : Db)
    (now2 : Nat)
    (hok : register db now salt uid c1 c2 c3 secret inp = (.ok td, db2))
    (hsec : secret ≠ "")
    (hexp : now2 < now + 86400 * 30)
    (hfresh : ∀ k ∈ db.categories, k.user_id ≠ some uid) :
    get_current_user_id db2 secret now2 td.token = .ok uid
    ∧ td.user.id = uid
    ∧ (db2.categories.filter (fun k => k.user_id == some uid)).map
        (fun k => k.name) = [some "Genel", some "İş", some "Kişisel"]
    ∧ (db2.categories.filter (fun k => k.user_id == some uid)).length = 3 := by
  unfold register at hok
  by_cases hdup : (db.users.any fun u =>
      u.username == inp.username ||
      (match inp.email with | some e => u.email == some e | none => false)) = true
  · rw [if_pos hdup] at hok
    exact absurd hok (by simp)
  rw [if_neg hdup] at hok
  by_cases hins : registerInsertsOk db uid c1 c2 c3 = true
  case neg =>
    rw [if_neg hins] at hok
    exact absurd hok (by simp)
  rw [if_pos hins] at hok
  rw [Prod.mk.injEq] at hok
  obtain ⟨h1, h2⟩ := hok
  have htd : td
      = { token := create_token secret now uid,
          user := { id := uid, username := inp.username, email := inp.email,
                    created_at := now } } := by
    simpa using h1.symm
  subst htd
  subst h2
  have hs1 : (secret == "") = false := beq_eq_false_iff_ne.mpr hsec
  have hnil : db.categories.filter (fun k => k.user_id == some uid) = [] := by
    rw [List.filter_eq_nil_iff]
    intro k hk
    simpa using hfresh k hk
  refine ⟨?_, rfl, ?_, ?_⟩
  · simp only [get_current_user_id, create_token, hs1, Bool.false_eq_true,
      if_false, bne_self_eq_false, dbRegistered, List.any_append]
    rw [if_neg (not_le.mpr hexp)]
    simp
  · simp [dbRegistered, List.filter_append, hnil, registerNewCats, List.filter]
  · simp [dbRegistered, List.filter_append, hnil, registerNewCats, List.filter]

def c6inp : UserRegister := { username := "alice", password := "pw123" }

def c6td : TokenData :=
  { token := { user_id := 7, exp := 2592000, secret := "s" },
    user := { id := 7, username := "alice", email := none, created_at := 0 } }

def c6db2 : Db :=
  { users := [{ id := 7, username := "alice", email := none,
                password_hash := hash_password 3 "pw123", created_at := 0 }],
    categories := registerNewCats 0 7 21 22 23, tasks := [] }

/-- Witness for C6: registering `alice` in the empty store; her token
resolves back to user 7 five seconds later, and exactly the three default
categories exist for her. -/
theorem register_token_resolves_witness :
    get_current_user_id c6db2 "s" 5 c6td.token = .ok 7
    ∧ c6td.user.id = 7
    ∧ (c6db2.categories.filter (fun k => k.user_id == some 7)).map
        (fun k => k.name) = [some "Genel", some "İş", some "Kişisel"]
    ∧ (c6db2.categories.filter (fun k => k.user_id == some 7)).length = 3 :=
  register_token_resolves dbEmpty 0 3 7 21 22 23 "s" c6inp c6td c6db2 5
    (by rfl) (by decide) (by decide) (by intro k hk; simp [dbEmpty] at hk)

end TaskMaster
